import Mathlib

/-!
# Verification of the soci-wrapper build-and-publish pipeline

A shallow embedding of `src/main.go` of the soci-wrapper repository.

The program is a single-shot batch job: it validates an image manifest,
provisions a scratch workspace under `/tmp`, initializes storage handles,
pulls the image, builds a SOCI index, selects the newest recorded index
descriptor, pushes it back to the registry, and always tears the workspace
down.

External collaborators (registry client, soci index builder, the OS
filesystem primitives) are modelled by an `Env` of oracles fixing the
outcome of each collaborator call, and the pipeline threads an explicit
`PState` recording the filesystem directories it owns, the ordered trace
of collaborator events, and the log entries it emitted.
-/

namespace SociWrapper

/-- A Go `error` value, identified by its message. -/
structure GoError where
  msg : String
deriving DecidableEq, Repr

/-- An OCI content descriptor (`ocispec.Descriptor`): digest, size, media type. -/
structure Descriptor where
  digest : String
  size : Nat
  mediaType : String
deriving DecidableEq, Repr

/-- One entry of the collection returned by `soci.GetIndexDescriptorCollection`:
a descriptor together with its creation timestamp (`CreatedAt`, modelled as `Nat`). -/
structure IndexDescriptorInfo where
  CreatedAt : Nat
  Descriptor : Descriptor
deriving DecidableEq, Repr

/-- A log entry emitted through `utils/log`. -/
inductive LogEntry where
  | info (msg : String)
  | warn (msg : String)
  | err (msg : String) (e : GoError)
deriving DecidableEq, Repr

/-- Ordered trace of the observable collaborator calls made by the pipeline. -/
inductive Event where
  | regInitEv
  | validateEv
  | mkdirTempEv
  | artifactStoreEv
  | metadataDbEv
  | contentStoreEv
  | builderNewEv
  | buildEv
  | listDescEv
  | pullEv
  | pushEv
  | cleanUpEv
deriving DecidableEq, Repr

/-- Observable state threaded through the pipeline: the directories that
currently exist in the scratch filesystem, the event trace, the emitted log
entries, and the request-scoped context values (`context.WithValue`). -/
structure PState where
  dirs : List String := []
  events : List Event := []
  logs : List LogEntry := []
  ctxVals : List (String × String) := []
deriving DecidableEq, Repr

/-- Append a log entry. -/
def PState.log (st : PState) (l : LogEntry) : PState :=
  { st with logs := st.logs ++ [l] }

/-- Append an event to the trace. -/
def PState.ev (st : PState) (e : Event) : PState :=
  { st with events := st.events ++ [e] }

/-- Oracles fixing the outcome of each external collaborator call for one
invocation: `registryutils.Init`, `registry.ValidateImageManifest`,
`os.MkdirTemp`, `oci.NewWithContext`, `local.NewStore`, `soci.NewDB`,
`soci.NewIndexBuilder`, `builder.Build`, `soci.GetIndexDescriptorCollection`,
`registry.Pull`, `registry.Push`, and the outcome of `os.RemoveAll` on an
existing directory. -/
structure Env where
  registryInit : Except GoError Unit
  validateImageManifest : Except GoError Unit
  mkdirTemp : Except GoError String
  ociNew : Except GoError Unit
  localNewStore : Except GoError Unit
  sociNewDB : Except GoError Unit
  newIndexBuilder : Except GoError Unit
  builderBuild : Except GoError Unit
  getIndexDescriptorCollection : Except GoError (List IndexDescriptorInfo)
  pull : Except GoError Descriptor
  push : Except GoError Unit
  removeAllErr : Option GoError
deriving Repr

/-- Model of `strings.HasPrefix` from the Go standard library, on the
string's characters. -/
def stringsHasPre (s pre : String) : Bool :=
  pre.data.isPrefixOf s.data

/-- Function `buildEcrRegistryUrl`: returns the ECR registry url for a
region/account pair (src/main.go lines 32-38). -/
def buildEcrRegistryUrl (region : String) (account : String) : String :=
  let awsDomain := if stringsHasPre region "cn" then ".amazonaws.com.cn" else ".amazonaws.com"
  account ++ ".dkr.ecr." ++ region ++ awsDomain

/-- Function `createTempDir`: logs, then creates a temp directory in /tmp via
`os.MkdirTemp` (src/main.go lines 42-49).  On success the new directory
exists in the filesystem. -/
def createTempDir (env : Env) (st : PState) : Except GoError String × PState :=
  let st := st.log (.info "There are N bytes of free space in /tmp directory")
  let st := st.log (.info "Creating a directory to store images and SOCI artifacts")
  let st := st.ev .mkdirTempEv
  match env.mkdirTemp with
  | .ok dir => (.ok dir, { st with dirs := st.dirs ++ [dir] })
  | .error e => (.error e, st)

/-- Model of `os.RemoveAll`: removing a path that does not exist succeeds and is a
no-op; removing an existing directory removes it, unless the oracle says the
removal fails, in which case the directory survives and the error is
returned. -/
def removeAll (env : Env) (st : PState) (dir : String) : Option GoError × PState :=
  if dir ∈ st.dirs then
    match env.removeAllErr with
    | none => (none, { st with dirs := st.dirs.filter (fun x => x ≠ dir) })
    | some e => (some e, st)
  else
    (none, st)

/-- Function `cleanUp`: recursively removes the data directory; a removal error is
logged and not propagated (src/main.go lines 52-57). -/
def cleanUp (env : Env) (st : PState) (dataDir : String) : PState :=
  let st := st.log (.info ("Removing all files in " ++ dataDir))
  let st := st.ev .cleanUpEv
  match removeAll env st dataDir with
  | (some e, st) => st.log (.err "Clean up error" e)
  | (none, st) => st

/-- Function `initContainerdStore`: init the containerd (generic content) store via
`local.NewStore` (src/main.go lines 60-63). -/
def initContainerdStore (env : Env) (st : PState) : Except GoError Unit × PState :=
  (env.localNewStore, st.ev .contentStoreEv)

/-- Function `initSociStore`: init the OCI artifact store via `oci.NewWithContext`,
wrapped as a `store.SociStore` (src/main.go lines 71-77). -/
def initSociStore (env : Env) (st : PState) : Except GoError Unit × PState :=
  (env.ociNew, st.ev .artifactStoreEv)

/-- Function `initSociArtifactsDb`: open the SOCI artifacts metadata database via
`soci.NewDB` (src/main.go lines 80-87). -/
def initSociArtifactsDb (env : Env) (st : PState) : Except GoError Unit × PState :=
  (env.sociNewDB, st.ev .metadataDbEv)

/-- The comparison used by `sort.Slice` in `buildIndex`: ascending order of
`CreatedAt` (the Go code uses the strict `Before`; a non-decreasing
arrangement is the result either way). -/
def leCreatedAt (a b : IndexDescriptorInfo) : Bool :=
  a.CreatedAt ≤ b.CreatedAt

/-- Function `buildIndex` (src/main.go lines 90-127): init the artifacts database,
the containerd store and the index builder, build the SOCI index, list the
recorded index descriptors, fail if there are none, otherwise sort them by
creation timestamp and return the descriptor of the last (newest) one. -/
def buildIndex (env : Env) (st : PState) : Except GoError Descriptor × PState :=
  let st := st.log (.info "Building SOCI index")
  let (rdb, st) := initSociArtifactsDb env st
  match rdb with
  | .error e => (.error e, st)
  | .ok _ =>
  let (rcs, st) := initContainerdStore env st
  match rcs with
  | .error e => (.error e, st)
  | .ok _ =>
  let st := st.ev .builderNewEv
  match env.newIndexBuilder with
  | .error e => (.error e, st)
  | .ok _ =>
  let st := st.ev .buildEv
  match env.builderBuild with
  | .error e => (.error e, st)
  | .ok _ =>
  let st := st.ev .listDescEv
  match env.getIndexDescriptorCollection with
  | .error e => (.error e, st)
  | .ok indexDescriptorInfos =>
  if hinfos : indexDescriptorInfos = [] then
    (.error ⟨"No SOCI indices found in OCI store"⟩, st)
  else
    let sorted := indexDescriptorInfos.mergeSort leCreatedAt
    (.ok ((sorted.getLast (by
      intro hc
      exact hinfos (List.length_eq_zero.mp
        (by simpa [sorted, List.length_mergeSort] using congrArg List.length hc)))).Descriptor),
      st)

/-- The pair returned by the lambda handler: a status message and an
optional error. -/
structure ProcResult where
  msg : String
  err : Option GoError
deriving DecidableEq, Repr

/-- Function `lambdaError`: log and return the handler error verbatim together with
its descriptive message (src/main.go lines 130-133). -/
def lambdaError (st : PState) (msg : String) (e : GoError) : ProcResult × PState :=
  (⟨msg, some e⟩, st.log (.err msg e))

/-- Function `process` (src/main.go lines 135-187): the orchestration pipeline.
Returns the (message, error) pair together with the final observable state.
The Go `defer cleanUp(ctx, dataDir)` is modelled by applying `cleanUp` on
every return path situated after the successful workspace creation. -/
def process (env : Env) (repo digest region account : String) :
    ProcResult × PState :=
  let registryUrl := buildEcrRegistryUrl region account
  let st : PState := {}
  let st := { st with ctxVals := st.ctxVals ++ [("RegistryURL", registryUrl)] }
  let st := st.ev .regInitEv
  match env.registryInit with
  | .error e => lambdaError st "Remote registry initialization error" e
  | .ok _ =>
  let st := st.ev .validateEv
  match env.validateImageManifest with
  | .error _ =>
    (⟨"Exited early due to manifest validation error", none⟩,
      st.log (.warn "Image manifest validation error"))
  | .ok _ =>
  let (rdir, st) := createTempDir env st
  let st := st.log (.info "The path to the dataDir")
  match rdir with
  | .error e => lambdaError st "Directory create error" e
  | .ok dataDir =>
  let (rstore, st) := initSociStore env st
  match rstore with
  | .error e =>
    let (res, st) := lambdaError st "OCI storage initialization error" e
    (res, cleanUp env st dataDir)
  | .ok _ =>
  let st := st.ev .pullEv
  match env.pull with
  | .error e =>
    let (res, st) := lambdaError st "Image pull error" e
    (res, cleanUp env st dataDir)
  | .ok _desc =>
  let _image := repo ++ "@" ++ digest
  let (ridx, st) := buildIndex env st
  match ridx with
  | .error e =>
    let (res, st) := lambdaError st "SOCI index build error" e
    (res, cleanUp env st dataDir)
  | .ok indexDescriptor =>
  let st := { st with ctxVals := st.ctxVals ++ [("SOCIIndexDigest", indexDescriptor.digest)] }
  let st := st.ev .pushEv
  match env.push with
  | .error e =>
    let (res, st) := lambdaError st "SOCI index push error" e
    (res, cleanUp env st dataDir)
  | .ok _ =>
    (⟨"Successfully built and pushed SOCI index", none⟩,
      cleanUp env (st.log (.info "Successfully built and pushed SOCI index")) dataDir)

/-- The observable outcome of running `main` on an argument vector
(`os.Args`, program name included): the usage message with exit code 1, a
runtime panic from an out-of-bounds index into `os.Args`, or a normal
completion (process exit code 0) carrying the `process` result that `main`
computed and discarded. -/
inductive MainResult where
  | usageExit (printed : String) (exitCode : Nat)
  | panicked
  | completed (exitCode : Nat) (res : ProcResult)
deriving DecidableEq, Repr

/-- Function `main` (src/main.go lines 189-199): if `len(os.Args) < 4` print usage
and exit 1; otherwise read `os.Args[1]` … `os.Args[4]` (panicking if an
index is out of range) and call `process`, discarding its result. -/
def mainGo (env : Env) (args : List String) : MainResult :=
  if args.length < 4 then
    .usageExit "Usage: soci-wrapper REPOSITORY_NAME IMAGE_DIGEST AWS_REGION AWS_ACCOUNT" 1
  else
    match args[1]?, args[2]?, args[3]?, args[4]? with
    | some repo, some digest, some region, some account =>
      .completed 0 (process env repo digest region account).1
    | _, _, _, _ => .panicked

/-- A concrete descriptor used in witnesses. -/
def descA : Descriptor :=
  ⟨"sha256:aaaa", 4096, "application/vnd.oci.image.manifest.v1+json"⟩

/-- A second concrete descriptor used in witnesses. -/
def descB : Descriptor :=
  ⟨"sha256:bbbb", 8192, "application/vnd.oci.image.manifest.v1+json"⟩

/-- An environment in which every collaborator call succeeds; the recorded
index descriptor collection holds two entries with distinct creation
timestamps, the newer one carrying `descB`. -/
def envAllOk : Env where
  registryInit := .ok ()
  validateImageManifest := .ok ()
  mkdirTemp := .ok "/tmp/soci-wrapper-ws1"
  ociNew := .ok ()
  localNewStore := .ok ()
  sociNewDB := .ok ()
  newIndexBuilder := .ok ()
  builderBuild := .ok ()
  getIndexDescriptorCollection := .ok [⟨3, descA⟩, ⟨7, descB⟩]
  pull := .ok descA
  push := .ok ()
  removeAllErr := none

/-- An environment in which manifest validation fails and everything else
succeeds. -/
def envValFail : Env :=
  { envAllOk with validateImageManifest := .error ⟨"unsupported media type"⟩ }

/-- An environment in which registry initialization fails. -/
def envRegFail : Env :=
  { envAllOk with registryInit := .error ⟨"connection refused"⟩ }

/-- An environment in which the index push fails and everything else
succeeds. -/
def envPushFail : Env :=
  { envAllOk with push := .error ⟨"access denied"⟩ }

/-- An environment whose recorded descriptor collection has exactly one
entry. -/
def envSingleColl : Env :=
  { envAllOk with getIndexDescriptorCollection := .ok [⟨5, descA⟩] }

/-- An environment whose recorded descriptor collection is empty. -/
def envEmptyColl : Env :=
  { envAllOk with getIndexDescriptorCollection := .ok [] }

/-!
## Helper lemmas
-/

/-- In a list that is pairwise non-decreasing by `leCreatedAt`, the last
element has the largest creation timestamp. -/
theorem le_getLast_of_pairwise (l : List IndexDescriptorInfo) (h : l ≠ [])
    (hs : l.Pairwise (fun a b => leCreatedAt a b = true)) :
    ∀ x ∈ l, x.CreatedAt ≤ (l.getLast h).CreatedAt := by
  induction l with
  | nil => exact absurd rfl h
  | cons a t ih =>
    cases t with
    | nil =>
      intro x hx
      simp only [List.mem_singleton] at hx
      subst hx
      simp [List.getLast]
    | cons b t2 =>
      intro x hx
      have hpc := List.pairwise_cons.mp hs
      rw [List.getLast_cons (List.cons_ne_nil b t2)]
      rcases List.mem_cons.mp hx with rfl | hx2
      · have hmem := List.getLast_mem (List.cons_ne_nil b t2)
        have hle := hpc.1 _ hmem
        simpa [leCreatedAt] using hle
      · exact ih (List.cons_ne_nil b t2) hpc.2 x hx2

/-- Transitivity of the `buildIndex` sort comparison. -/
theorem leCreatedAt_trans (a b c : IndexDescriptorInfo) :
    leCreatedAt a b = true → leCreatedAt b c = true → leCreatedAt a c = true := by
  simp only [leCreatedAt, decide_eq_true_eq]
  omega

/-- Totality of the `buildIndex` sort comparison. -/
theorem leCreatedAt_total (a b : IndexDescriptorInfo) :
    (leCreatedAt a b || leCreatedAt b a) = true := by
  simp only [leCreatedAt, Bool.or_eq_true, decide_eq_true_eq]
  omega

/-- Running `cleanUp` appends exactly one cleanup event to the trace. -/
theorem cleanUp_events (env : Env) (st : PState) (d : String) :
    (cleanUp env st d).events = st.events ++ [Event.cleanUpEv] := by
  unfold cleanUp removeAll
  by_cases hmem : d ∈ st.dirs <;> cases henv : env.removeAllErr <;>
    simp [hmem, henv, PState.log, PState.ev]

/-- When removal succeeds, `cleanUp` removes the directory from the
filesystem. -/
theorem cleanUp_dirs (env : Env) (st : PState) (d : String)
    (h : env.removeAllErr = none) :
    (cleanUp env st d).dirs = st.dirs.filter (fun x => x ≠ d) := by
  unfold cleanUp removeAll
  by_cases hmem : d ∈ st.dirs <;> simp [hmem, h, PState.log, PState.ev]
  exact (List.filter_eq_self.mpr (fun a ha => by
    simp only [ne_eq, decide_not, Bool.not_eq_true', decide_eq_false_iff_not]
    exact fun hc => hmem (hc ▸ ha))).symm

/-!
## Claims
-/

/-- C6: `buildEcrRegistryUrl` is a pure, total function of (region, account)
computing `account ++ ".dkr.ecr." ++ region ++ suffix`, where the suffix is
`".amazonaws.com.cn"` exactly when the region starts with `"cn"` and
`".amazonaws.com"` otherwise; in particular the two concrete examples of the
spec hold. -/
theorem C6_buildEcrRegistryUrl_spec :
    (∀ region account : String,
      buildEcrRegistryUrl region account =
        account ++ ".dkr.ecr." ++ region ++
          (if stringsHasPre region "cn" then ".amazonaws.com.cn" else ".amazonaws.com"))
    ∧ buildEcrRegistryUrl "us-west-2" "123456789012" =
        "123456789012.dkr.ecr.us-west-2.amazonaws.com"
    ∧ buildEcrRegistryUrl "cn-north-1" "123456789012" =
        "123456789012.dkr.ecr.cn-north-1.amazonaws.com.cn" :=
  ⟨fun _ _ => rfl, by decide, by decide⟩

/-- C1: whenever the registry client is initialized and manifest validation
fails, `process` returns the message "Exited early due to manifest
validation error" together with a nil error — never a non-nil error. -/
theorem C1_validation_skip (env : Env) (repo digest region account : String)
    (e : GoError) (hreg : env.registryInit = .ok ())
    (hval : env.validateImageManifest = .error e) :
    (process env repo digest region account).1 =
      ⟨"Exited early due to manifest validation error", none⟩ := by
  simp [process, hreg, hval]

/-- Witness for C1 at a concrete failing-validation environment. -/
theorem C1_validation_skip_witness :
    (process envValFail "myrepo" "sha256:abc" "us-west-2" "123456789012").1 =
      ⟨"Exited early due to manifest validation error", none⟩ :=
  C1_validation_skip envValFail "myrepo" "sha256:abc" "us-west-2" "123456789012"
    ⟨"unsupported media type"⟩ rfl rfl

/-- C10: when registry initialization fails, `process` terminates with the
message "Remote registry initialization error" and the collaborator's error,
before manifest validation is attempted, before any workspace directory
exists, and without running cleanup. -/
theorem C10_registry_init_failure (env : Env) (repo digest region account : String)
    (e : GoError) (hreg : env.registryInit = .error e) :
    (process env repo digest region account).1 =
      ⟨"Remote registry initialization error", some e⟩
    ∧ (process env repo digest region account).2.dirs = []
    ∧ Event.validateEv ∉ (process env repo digest region account).2.events
    ∧ Event.mkdirTempEv ∉ (process env repo digest region account).2.events
    ∧ Event.cleanUpEv ∉ (process env repo digest region account).2.events := by
  simp [process, hreg, lambdaError, PState.ev, PState.log]

/-- Witness for C10 at a concrete failing-registry environment. -/
theorem C10_registry_init_failure_witness :
    (process envRegFail "myrepo" "sha256:abc" "us-west-2" "123456789012").1 =
      ⟨"Remote registry initialization error", some ⟨"connection refused"⟩⟩ :=
  (C10_registry_init_failure envRegFail "myrepo" "sha256:abc" "us-west-2"
    "123456789012" ⟨"connection refused"⟩ rfl).1

/-- C4: the argument-count guard is off by one.  An invocation with three
user arguments (`os.Args` has four entries, so `len(os.Args) < 4` is false)
does not print the usage message: it reads `os.Args[4]` out of bounds and
panics.  Invocations with at most two user arguments do print usage and
exit 1. -/
theorem C4_arg_guard_off_by_one :
    mainGo envAllOk ["soci-wrapper", "myrepo", "sha256:abc", "us-west-2"] =
      .panicked
    ∧ mainGo envAllOk ["soci-wrapper", "myrepo", "sha256:abc"] =
        .usageExit "Usage: soci-wrapper REPOSITORY_NAME IMAGE_DIGEST AWS_REGION AWS_ACCOUNT" 1 :=
  ⟨rfl, rfl⟩

/-- C9 counterexample: an argument vector with four entries passes the
guard (`len(os.Args) < 4` is false), yet `main` does not complete with exit
status 0 — it panics on the out-of-bounds read of `os.Args[4]` and never
calls `process`. -/
theorem C9_counterexample :
    4 ≤ (["soci-wrapper", "repo2", "sha256:def", "eu-west-1"] : List String).length
    ∧ mainGo envAllOk ["soci-wrapper", "repo2", "sha256:def", "eu-west-1"] =
        .panicked :=
  ⟨by decide, rfl⟩

/-- C9 (amended): for every invocation whose argument vector has at least
five entries (program name plus at least four user arguments), `main` calls
`process`, discards both the returned status message and the returned
error, and completes with process exit status 0 — whatever result `process`
produced, including a non-nil error. -/
theorem C9_main_discards_process_result (env : Env)
    (a0 repo digest region account : String) (rest : List String) :
    mainGo env (a0 :: repo :: digest :: region :: account :: rest) =
      .completed 0 (process env repo digest region account).1 := by
  simp [mainGo]

/-- C2: in every run of `process` in which the scratch workspace was
successfully provisioned, cleanup runs before `process` returns on every
exit path (the trace always contains the cleanup event), and — when the
removal itself succeeds — the workspace directory does not exist after the
pipeline returns. -/
theorem C2_cleanup_every_exit_path (env : Env)
    (repo digest region account dir : String)
    (hreg : env.registryInit = .ok ()) (hval : env.validateImageManifest = .ok ())
    (hdir : env.mkdirTemp = .ok dir) :
    Event.cleanUpEv ∈ (process env repo digest region account).2.events
    ∧ (env.removeAllErr = none →
        (process env repo digest region account).2.dirs = []) := by
  unfold process createTempDir buildIndex initSociStore initSociArtifactsDb
    initContainerdStore lambdaError
  simp only [hreg, hval, hdir]
  repeat' split
  all_goals
    constructor
  all_goals
    simp_all [cleanUp_events, cleanUp_dirs, PState.ev, PState.log]

/-- Witness for C2 at a concrete fully-successful environment. -/
theorem C2_cleanup_every_exit_path_witness :
    Event.cleanUpEv ∈
      (process envAllOk "myrepo" "sha256:abc" "us-west-2" "123456789012").2.events
    ∧ (process envAllOk "myrepo" "sha256:abc" "us-west-2" "123456789012").2.dirs = [] :=
  ⟨(C2_cleanup_every_exit_path envAllOk "myrepo" "sha256:abc" "us-west-2" "123456789012"
      "/tmp/soci-wrapper-ws1" rfl rfl rfl).1,
   (C2_cleanup_every_exit_path envAllOk "myrepo" "sha256:abc" "us-west-2" "123456789012"
      "/tmp/soci-wrapper-ws1" rfl rfl rfl).2 rfl⟩

/-- C3: when the index build succeeds and the recorded descriptor collection
is `infos`, `buildIndex` fails with the terminal error "No SOCI indices
found in OCI store" on the empty collection, returns the element of a
single-element collection, and on a collection with pairwise-distinct
creation timestamps returns the descriptor of the element whose creation
timestamp is the (strict) maximum — never a crash or nil dereference, by
totality of the definition. -/
theorem C3_select_latest_descriptor (env : Env) (st : PState)
    (infos : List IndexDescriptorInfo)
    (hdb : env.sociNewDB = .ok ()) (hcs : env.localNewStore = .ok ())
    (hnb : env.newIndexBuilder = .ok ()) (hbb : env.builderBuild = .ok ())
    (hget : env.getIndexDescriptorCollection = .ok infos) :
    (infos = [] →
      (buildIndex env st).1 = .error ⟨"No SOCI indices found in OCI store"⟩)
    ∧ (∀ i, infos = [i] → (buildIndex env st).1 = .ok i.Descriptor)
    ∧ (infos.Pairwise (fun a b => a.CreatedAt ≠ b.CreatedAt) → infos ≠ [] →
       ∃ i ∈ infos, (buildIndex env st).1 = .ok i.Descriptor
         ∧ (∀ j ∈ infos, j.CreatedAt ≤ i.CreatedAt)
         ∧ (∀ j ∈ infos, j ≠ i → j.CreatedAt < i.CreatedAt)) := by
  refine ⟨?_, ?_, ?_⟩
  · intro h
    subst h
    simp [buildIndex, initSociArtifactsDb, initContainerdStore, hdb, hcs, hnb, hbb, hget]
  · intro i h
    subst h
    have hsingle : ([i].mergeSort leCreatedAt) = [i] :=
      List.perm_singleton.mp (List.mergeSort_perm [i] leCreatedAt)
    simp [buildIndex, initSociArtifactsDb, initContainerdStore, hdb, hcs, hnb, hbb, hget,
      hsingle, List.getLast]
  · intro hdist hne
    have hlen : (infos.mergeSort leCreatedAt) ≠ [] := by
      intro hc
      exact hne (List.length_eq_zero.mp
        (by simpa [List.length_mergeSort] using congrArg List.length hc))
    have hsorted : (infos.mergeSort leCreatedAt).Pairwise
        (fun a b => leCreatedAt a b = true) :=
      List.sorted_mergeSort leCreatedAt_trans leCreatedAt_total infos
    refine ⟨(infos.mergeSort leCreatedAt).getLast hlen, ?_, ?_, ?_, ?_⟩
    · exact List.mem_mergeSort.mp (List.getLast_mem hlen)
    · simp only [buildIndex, initSociArtifactsDb, initContainerdStore, hdb, hcs, hnb,
        hbb, hget]
      rw [dif_neg hne]
    · intro j hj
      exact le_getLast_of_pairwise _ hlen hsorted j (List.mem_mergeSort.mpr hj)
    · intro j hj hji
      have hle := le_getLast_of_pairwise _ hlen hsorted j (List.mem_mergeSort.mpr hj)
      have hmem : (infos.mergeSort leCreatedAt).getLast hlen ∈ infos :=
        List.mem_mergeSort.mp (List.getLast_mem hlen)
      have hne2 := hdist.forall (fun a b hab => hab.symm) hj hmem hji
      omega

/-- Witness for C3 at a single-element collection and at the empty
collection. -/
theorem C3_select_latest_descriptor_witness :
    (buildIndex envSingleColl {}).1 = .ok descA
    ∧ (buildIndex envEmptyColl {}).1 = .error ⟨"No SOCI indices found in OCI store"⟩ :=
  ⟨(C3_select_latest_descriptor envSingleColl {} [⟨5, descA⟩] rfl rfl rfl rfl rfl).2.1
      ⟨5, descA⟩ rfl,
   (C3_select_latest_descriptor envEmptyColl {} [] rfl rfl rfl rfl rfl).1 rfl⟩

/-- C5 counterexample: in a fully successful concrete run, the artifact
store is initialized before the content store and the metadata database is
initialized before the content store — the content store is not first, so
the claimed order (content store, then artifact store, then metadata
database) is false on the code. -/
theorem C5_claimed_order_counterexample :
    ((process envAllOk "myrepo" "sha256:abc" "us-west-2" "123456789012").2.events.indexOf
        Event.artifactStoreEv <
      (process envAllOk "myrepo" "sha256:abc" "us-west-2" "123456789012").2.events.indexOf
        Event.contentStoreEv)
    ∧ ((process envAllOk "myrepo" "sha256:abc" "us-west-2" "123456789012").2.events.indexOf
        Event.metadataDbEv <
      (process envAllOk "myrepo" "sha256:abc" "us-west-2" "123456789012").2.events.indexOf
        Event.contentStoreEv) := by decide

/-- C5 (amended): the artifact store handle is initialized immediately after
workspace provisioning, before the image pull; the metadata database and the
content store are initialized inside the index-build step after the pull, in
the order metadata database first, then content store (in a fully successful
run the trace is exactly registry-init, validate, mkdir, artifact store,
pull, metadata db, content store, builder-new, build, list, push, cleanup);
any of these storage initialization failures is terminal, returning the
collaborator's error. -/
theorem C5_storage_init_actual_order (env : Env)
    (repo digest region account dir : String) (d0 : Descriptor)
    (infos : List IndexDescriptorInfo)
    (hreg : env.registryInit = .ok ()) (hval : env.validateImageManifest = .ok ())
    (hdir : env.mkdirTemp = .ok dir) :
    (env.ociNew = .ok () → env.pull = .ok d0 → env.sociNewDB = .ok () →
     env.localNewStore = .ok () → env.newIndexBuilder = .ok () →
     env.builderBuild = .ok () → env.getIndexDescriptorCollection = .ok infos →
     infos ≠ [] → env.push = .ok () →
      (process env repo digest region account).2.events =
        [Event.regInitEv, Event.validateEv, Event.mkdirTempEv, Event.artifactStoreEv,
         Event.pullEv, Event.metadataDbEv, Event.contentStoreEv, Event.builderNewEv,
         Event.buildEv, Event.listDescEv, Event.pushEv, Event.cleanUpEv])
    ∧ (∀ e, env.ociNew = .error e →
        (process env repo digest region account).1 =
          ⟨"OCI storage initialization error", some e⟩)
    ∧ (env.ociNew = .ok () → env.pull = .ok d0 → ∀ e, env.sociNewDB = .error e →
        (process env repo digest region account).1 = ⟨"SOCI index build error", some e⟩)
    ∧ (env.ociNew = .ok () → env.pull = .ok d0 → env.sociNewDB = .ok () →
        ∀ e, env.localNewStore = .error e →
        (process env repo digest region account).1 = ⟨"SOCI index build error", some e⟩) := by
  refine ⟨?_, ?_, ?_, ?_⟩
  · intro h1 h2 h3 h4 h5 h6 h7 h8 h9
    simp [process, createTempDir, buildIndex, initSociStore, initSociArtifactsDb,
      initContainerdStore, lambdaError, cleanUp_events, PState.ev, PState.log,
      hreg, hval, hdir, h1, h2, h3, h4, h5, h6, h7, h8, h9]
  · intro e h1
    simp [process, createTempDir, initSociStore, lambdaError, cleanUp_events,
      PState.ev, PState.log, hreg, hval, hdir, h1]
  · intro h1 h2 e h3
    simp [process, createTempDir, buildIndex, initSociStore, initSociArtifactsDb,
      initContainerdStore, lambdaError, hreg, hval, hdir, h1, h2, h3]
  · intro h1 h2 h3 e h4
    simp [process, createTempDir, buildIndex, initSociStore, initSociArtifactsDb,
      initContainerdStore, lambdaError, hreg, hval, hdir, h1, h2, h3, h4]

/-- Witness for the amended C5 at a concrete fully-successful environment. -/
theorem C5_storage_init_actual_order_witness :
    (process envAllOk "myrepo" "sha256:abc" "us-west-2" "123456789012").2.events =
      [Event.regInitEv, Event.validateEv, Event.mkdirTempEv, Event.artifactStoreEv,
       Event.pullEv, Event.metadataDbEv, Event.contentStoreEv, Event.builderNewEv,
       Event.buildEv, Event.listDescEv, Event.pushEv, Event.cleanUpEv] :=
  (C5_storage_init_actual_order envAllOk "myrepo" "sha256:abc" "us-west-2" "123456789012"
      "/tmp/soci-wrapper-ws1" descA [⟨3, descA⟩, ⟨7, descB⟩] rfl rfl rfl).1
    rfl rfl rfl rfl rfl rfl rfl (List.cons_ne_nil _ _) rfl

/-- C7: every fault other than a manifest-validation failure — registry
initialization, workspace creation, artifact storage initialization, pull,
index-builder construction, build, descriptor listing, zero recorded
descriptors, push — makes `process` return its descriptive message together
with a non-nil error, and the error value is the collaborator's error
verbatim (for the zero-descriptor case, the error constructed inside
`buildIndex`). -/
theorem C7_fault_messages_verbatim_errors (env : Env)
    (repo digest region account : String) :
    (∀ e, env.registryInit = .error e →
      (process env repo digest region account).1 =
        ⟨"Remote registry initialization error", some e⟩)
    ∧ (env.registryInit = .ok () → env.validateImageManifest = .ok () →
       ∀ e, env.mkdirTemp = .error e →
        (process env repo digest region account).1 = ⟨"Directory create error", some e⟩)
    ∧ (env.registryInit = .ok () → env.validateImageManifest = .ok () →
       ∀ dir, env.mkdirTemp = .ok dir → ∀ e, env.ociNew = .error e →
        (process env repo digest region account).1 =
          ⟨"OCI storage initialization error", some e⟩)
    ∧ (env.registryInit = .ok () → env.validateImageManifest = .ok () →
       ∀ dir, env.mkdirTemp = .ok dir → env.ociNew = .ok () →
       ∀ e, env.pull = .error e →
        (process env repo digest region account).1 = ⟨"Image pull error", some e⟩)
    ∧ (env.registryInit = .ok () → env.validateImageManifest = .ok () →
       ∀ dir, env.mkdirTemp = .ok dir → env.ociNew = .ok () →
       ∀ d0, env.pull = .ok d0 → env.sociNewDB = .ok () → env.localNewStore = .ok () →
       ∀ e, env.newIndexBuilder = .error e →
        (process env repo digest region account).1 = ⟨"SOCI index build error", some e⟩)
    ∧ (env.registryInit = .ok () → env.validateImageManifest = .ok () →
       ∀ dir, env.mkdirTemp = .ok dir → env.ociNew = .ok () →
       ∀ d0, env.pull = .ok d0 → env.sociNewDB = .ok () → env.localNewStore = .ok () →
       env.newIndexBuilder = .ok () → ∀ e, env.builderBuild = .error e →
        (process env repo digest region account).1 = ⟨"SOCI index build error", some e⟩)
    ∧ (env.registryInit = .ok () → env.validateImageManifest = .ok () →
       ∀ dir, env.mkdirTemp = .ok dir → env.ociNew = .ok () →
       ∀ d0, env.pull = .ok d0 → env.sociNewDB = .ok () → env.localNewStore = .ok () →
       env.newIndexBuilder = .ok () → env.builderBuild = .ok () →
       ∀ e, env.getIndexDescriptorCollection = .error e →
        (process env repo digest region account).1 = ⟨"SOCI index build error", some e⟩)
    ∧ (env.registryInit = .ok () → env.validateImageManifest = .ok () →
       ∀ dir, env.mkdirTemp = .ok dir → env.ociNew = .ok () →
       ∀ d0, env.pull = .ok d0 → env.sociNewDB = .ok () → env.localNewStore = .ok () →
       env.newIndexBuilder = .ok () → env.builderBuild = .ok () →
       env.getIndexDescriptorCollection = .ok [] →
        (process env repo digest region account).1 =
          ⟨"SOCI index build error", some ⟨"No SOCI indices found in OCI store"⟩⟩)
    ∧ (env.registryInit = .ok () → env.validateImageManifest = .ok () →
       ∀ dir, env.mkdirTemp = .ok dir → env.ociNew = .ok () →
       ∀ d0, env.pull = .ok d0 → env.sociNewDB = .ok () → env.localNewStore = .ok () →
       env.newIndexBuilder = .ok () → env.builderBuild = .ok () →
       ∀ infos, env.getIndexDescriptorCollection = .ok infos → infos ≠ [] →
       ∀ e, env.push = .error e →
        (process env repo digest region account).1 = ⟨"SOCI index push error", some e⟩) := by
  refine ⟨?_, ?_, ?_, ?_, ?_, ?_, ?_, ?_, ?_⟩
  · intro e h1
    simp [process, lambdaError, h1]
  · intro h1 h2 e h3
    simp [process, createTempDir, lambdaError, h1, h2, h3]
  · intro h1 h2 dir h3 e h4
    simp [process, createTempDir, initSociStore, lambdaError, h1, h2, h3, h4]
  · intro h1 h2 dir h3 h4 e h5
    simp [process, createTempDir, initSociStore, lambdaError, h1, h2, h3, h4, h5]
  · intro h1 h2 dir h3 h4 d0 h5 h6 h7 e h8
    simp [process, createTempDir, buildIndex, initSociStore, initSociArtifactsDb,
      initContainerdStore, lambdaError, h1, h2, h3, h4, h5, h6, h7, h8]
  · intro h1 h2 dir h3 h4 d0 h5 h6 h7 h8 e h9
    simp [process, createTempDir, buildIndex, initSociStore, initSociArtifactsDb,
      initContainerdStore, lambdaError, h1, h2, h3, h4, h5, h6, h7, h8, h9]
  · intro h1 h2 dir h3 h4 d0 h5 h6 h7 h8 h9 e h10
    simp [process, createTempDir, buildIndex, initSociStore, initSociArtifactsDb,
      initContainerdStore, lambdaError, h1, h2, h3, h4, h5, h6, h7, h8, h9, h10]
  · intro h1 h2 dir h3 h4 d0 h5 h6 h7 h8 h9 h10
    simp [process, createTempDir, buildIndex, initSociStore, initSociArtifactsDb,
      initContainerdStore, lambdaError, h1, h2, h3, h4, h5, h6, h7, h8, h9, h10]
  · intro h1 h2 dir h3 h4 d0 h5 h6 h7 h8 h9 infos h10 h11 e h12
    simp [process, createTempDir, buildIndex, initSociStore, initSociArtifactsDb,
      initContainerdStore, lambdaError, h1, h2, h3, h4, h5, h6, h7, h8, h9, h10, h11, h12]

/-- Witness for C7 at a concrete push-failure environment. -/
theorem C7_fault_messages_verbatim_errors_witness :
    (process envPushFail "myrepo" "sha256:abc" "us-west-2" "123456789012").1 =
      ⟨"SOCI index push error", some ⟨"access denied"⟩⟩ :=
  (C7_fault_messages_verbatim_errors envPushFail "myrepo" "sha256:abc" "us-west-2"
      "123456789012").2.2.2.2.2.2.2.2
    rfl rfl "/tmp/soci-wrapper-ws1" rfl rfl descA rfl rfl rfl rfl rfl
    [⟨3, descA⟩, ⟨7, descB⟩] rfl (List.cons_ne_nil _ _) ⟨"access denied"⟩ rfl

/-- C8: `cleanUp` on an already-removed directory is safe and succeeds (it
only logs the informational line and changes nothing else); after a
successful `cleanUp` the directory is gone, so a second call falls into that
safe case (idempotence); a removal failure is logged and leaves the
filesystem unchanged, and the removal outcome never changes the (message,
error) result of `process` — cleanup cannot mask or override the primary
result. -/
theorem C8_cleanup_idempotent_never_propagates :
    (∀ env st d, d ∉ st.dirs →
      cleanUp env st d =
        { st with logs := st.logs ++ [LogEntry.info ("Removing all files in " ++ d)],
                  events := st.events ++ [Event.cleanUpEv] })
    ∧ (∀ env st d, env.removeAllErr = none → d ∉ (cleanUp env st d).dirs)
    ∧ (∀ env st d e, env.removeAllErr = some e → d ∈ st.dirs →
        (cleanUp env st d).dirs = st.dirs ∧
        (cleanUp env st d).logs = st.logs ++
          [LogEntry.info ("Removing all files in " ++ d), LogEntry.err "Clean up error" e])
    ∧ (∀ env e repo digest region account,
        (process { env with removeAllErr := e } repo digest region account).1 =
          (process env repo digest region account).1) := by
  refine ⟨?_, ?_, ?_, ?_⟩
  · intro env st d hmem
    unfold cleanUp removeAll
    simp [hmem, PState.log, PState.ev]
  · intro env st d h
    rw [cleanUp_dirs env st d h]
    simp
  · intro env st d e h hmem
    unfold cleanUp removeAll
    simp [hmem, h, PState.log, PState.ev]
  · intro env e repo digest region account
    rcases h1 : env.registryInit with e1 | u1
    · simp [process, lambdaError, h1]
    rcases h2 : env.validateImageManifest with e2 | u2
    · simp [process, h1, h2]
    rcases h3 : env.mkdirTemp with e3 | dir
    · simp [process, createTempDir, lambdaError, h1, h2, h3]
    rcases h4 : env.ociNew with e4 | u4
    · simp [process, createTempDir, initSociStore, lambdaError, h1, h2, h3, h4]
    rcases h5 : env.pull with e5 | d0
    · simp [process, createTempDir, initSociStore, lambdaError, h1, h2, h3, h4, h5]
    rcases h6 : env.sociNewDB with e6 | u6
    · simp [process, createTempDir, buildIndex, initSociStore, initSociArtifactsDb,
        initContainerdStore, lambdaError, h1, h2, h3, h4, h5, h6]
    rcases h7 : env.localNewStore with e7 | u7
    · simp [process, createTempDir, buildIndex, initSociStore, initSociArtifactsDb,
        initContainerdStore, lambdaError, h1, h2, h3, h4, h5, h6, h7]
    rcases h8 : env.newIndexBuilder with e8 | u8
    · simp [process, createTempDir, buildIndex, initSociStore, initSociArtifactsDb,
        initContainerdStore, lambdaError, h1, h2, h3, h4, h5, h6, h7, h8]
    rcases h9 : env.builderBuild with e9 | u9
    · simp [process, createTempDir, buildIndex, initSociStore, initSociArtifactsDb,
        initContainerdStore, lambdaError, h1, h2, h3, h4, h5, h6, h7, h8, h9]
    rcases h10 : env.getIndexDescriptorCollection with e10 | infos
    · simp [process, createTempDir, buildIndex, initSociStore, initSociArtifactsDb,
        initContainerdStore, lambdaError, h1, h2, h3, h4, h5, h6, h7, h8, h9, h10]
    by_cases h11 : infos = []
    · simp [process, createTempDir, buildIndex, initSociStore, initSociArtifactsDb,
        initContainerdStore, lambdaError, h1, h2, h3, h4, h5, h6, h7, h8, h9, h10, h11]
    rcases h12 : env.push with e12 | u12
    · simp [process, createTempDir, buildIndex, initSociStore, initSociArtifactsDb,
        initContainerdStore, lambdaError, h1, h2, h3, h4, h5, h6, h7, h8, h9, h10, h11, h12]
    · simp [process, createTempDir, buildIndex, initSociStore, initSociArtifactsDb,
        initContainerdStore, lambdaError, h1, h2, h3, h4, h5, h6, h7, h8, h9, h10, h11, h12]

/-- Witness for C8: cleanup of a non-existent directory succeeds and only
logs, and after a successful cleanup the directory is gone. -/
theorem C8_cleanup_idempotent_never_propagates_witness :
    cleanUp envAllOk {} "/tmp/gone" =
      { logs := [LogEntry.info ("Removing all files in /tmp/gone")],
        events := [Event.cleanUpEv] }
    ∧ "/tmp/soci" ∉ (cleanUp envAllOk { dirs := ["/tmp/soci"] } "/tmp/soci").dirs :=
  ⟨C8_cleanup_idempotent_never_propagates.1 envAllOk {} "/tmp/gone" (by simp),
   C8_cleanup_idempotent_never_propagates.2.1 envAllOk
     { dirs := ["/tmp/soci"] } "/tmp/soci" rfl⟩

end SociWrapper
